import Mathlib

/-!
# Verification of the ghost-text capture subsystem

Shallow embedding of the native ghost-text subsystem (keyboard hook with
debounce timer, UI-Automation context extractor, overlay renderer, and the
exposed addon control surface), together with theorems settling the spec
claims about it.

Times are modelled in milliseconds as `Nat`.  The sources embedded here are
`KeyboardHook.cpp` / `OverlayWindow.cpp` / `KeyboardHook.h`
(src/unnamed/part_001), `OverlayWindow.h` (src/unnamed/part_000) and
`main.cpp` / `common.h` / `SystemMonitor.h` / `SystemMonitor.cpp`
(src/native/src/main.cpp).
-/

namespace GhostText

/-- Debounce Timer State: the fields `m_lastKeyTime` and `m_debounceActive`
of `KeyboardHook` (KeyboardHook.h), guarded by `m_debounceMutex`. -/
structure DebounceState where
  lastKeyTime : Nat
  debounceActive : Bool
deriving DecidableEq, Repr

/-- `KeyboardHook::ResetDebounceTimer` (part_001:288-296): under the debounce
mutex, set `m_lastKeyTime` to the present instant `t`; if the timer is not
armed, arm it (and notify the condition variable). -/
def ResetDebounceTimer (t : Nat) (s : DebounceState) : DebounceState :=
  let s1 := { s with lastKeyTime := t }
  if !s1.debounceActive then { s1 with debounceActive := true } else s1

/-- `KeyboardHook::IsTypingKey` (part_001:251-286), with the Windows virtual-key
constants spelled as their numeric values: letters `0x41`-`0x5A`, digits
`0x30`-`0x39`, numpad digits `VK_NUMPAD0..9 = 0x60..0x69`,
`VK_SPACE = 0x20`, `VK_RETURN = 0x0D`, `VK_BACK = 0x08`, `VK_DELETE = 0x2E`,
the OEM block `VK_OEM_1 = 0xBA` through `VK_OEM_8 = 0xDF` (the source compares
the whole numeric range), `VK_OEM_PLUS/COMMA/MINUS/PERIOD = 0xBB..0xBE`, and
`VK_TAB = 0x09`. -/
def IsTypingKey (vkCode : Nat) : Bool :=
  if (0x41 ≤ vkCode ∧ vkCode ≤ 0x5A) ∨ (0x30 ≤ vkCode ∧ vkCode ≤ 0x39) then true
  else if 0x60 ≤ vkCode ∧ vkCode ≤ 0x69 then true
  else if vkCode = 0x20 ∨ vkCode = 0x0D ∨ vkCode = 0x08 ∨ vkCode = 0x2E then true
  else if 0xBA ≤ vkCode ∧ vkCode ≤ 0xDF then true
  else if vkCode = 0xBB ∨ vkCode = 0xBC ∨ vkCode = 0xBD ∨ vkCode = 0xBE then true
  else if vkCode = 0x09 then true
  else false

/-- `KeyboardHook::OnKeyPress` (part_001:197-212) running at instant `t`:
a key flagged `LLKHF_INJECTED` is ignored; a non-typing key is ignored;
otherwise the debounce timer is reset to `t`. -/
def OnKeyPress (vkCode : Nat) (injected : Bool) (t : Nat) (s : DebounceState) : DebounceState :=
  if injected then s
  else if !IsTypingKey vkCode then s
  else ResetDebounceTimer t s

/-- One keystroke event delivered to `LowLevelKeyboardProc`: its arrival
instant, virtual-key code, and whether the OS flagged it as injected. -/
structure KeyEvent where
  time : Nat
  vkCode : Nat
  injected : Bool
deriving DecidableEq, Repr

/--
`KeyboardHook::DebounceThreadProc` (part_001:144-181) run over a finite
time-ordered keystroke trace, with `D = m_debounceMs`.  Derived semantics of
the loop: once armed with last keystroke at `k`, the thread's chain of
`wait_until` deadlines fires exactly when a full quiet window elapses — it
wakes at `deadline = (lastKeyTime at loop entry) + D` and fires iff
`now - m_lastKeyTime ≥ D` still holds, i.e. iff no qualifying keystroke
arrived strictly inside `(k, k + D)`; a firing clears `m_debounceActive`
(before `OnTypingPaused` runs) and the next keystroke re-arms the timer via
`OnKeyPress`/`ResetDebounceTimer`.  A keystroke at exactly the deadline
instant is modelled as processed after the firing.  Each returned pair is a
firing instant together with the debounce state right after `m_debounceActive`
is cleared.
-/
def DebounceSim (D : Nat) : DebounceState → List KeyEvent → List (Nat × DebounceState)
  | s, [] =>
    if s.debounceActive then [(s.lastKeyTime + D, { s with debounceActive := false })] else []
  | s, e :: rest =>
    if s.debounceActive = true ∧ s.lastKeyTime + D ≤ e.time then
      (s.lastKeyTime + D, { s with debounceActive := false }) ::
        DebounceSim D (OnKeyPress e.vkCode e.injected e.time { s with debounceActive := false }) rest
    else
      DebounceSim D (OnKeyPress e.vkCode e.injected e.time s) rest

/-- The instants at which `OnTypingPaused` is invoked, for a trace started
from the idle state `Start()` leaves behind (`m_debounceActive = false`). -/
def debounceFiringTimes (D : Nat) (keys : List KeyEvent) : List Nat :=
  (DebounceSim D ⟨0, false⟩ keys).map Prod.fst

/-- `KeyboardHook::OnTypingPaused` (part_001:214-249) runs synchronously at
the firing instant and only then calls `SystemMonitor::GetCurrentContext`,
so the context capture instant for a firing at `fireTime` is `fireTime`
itself (in particular it is not earlier). -/
def contextCaptureTime (fireTime : Nat) : Nat := fireTime

/-- C1: Debounce exactly-once firing — with `debounceMs = 300` and qualifying
typing keystrokes (letter `A = 0x41`, hardware, not injected) at t=0, t=50 and
t=100 and no later keystrokes, the debounce machine fires exactly once, at
t=400 = 100 + 300, clearing `m_debounceActive`, and the context is captured no
earlier than that firing instant. -/
theorem debounce_fires_once_at_400 :
    DebounceSim 300 ⟨0, false⟩
        [⟨0, 0x41, false⟩, ⟨50, 0x41, false⟩, ⟨100, 0x41, false⟩]
      = [(400, ⟨100, false⟩)]
    ∧ 400 ≤ contextCaptureTime 400 := by
  decide

/-- C2 counterexample: with `debounceMs = 300` and qualifying keystrokes at
t=0 and t=350, a typing-paused firing DOES occur at t=300 — the t=350
keystroke arrives only after the t=300 deadline has fired, contradicting the
claim that no firing occurs at t=300. -/
theorem debounce_key_after_deadline_fires_at_300 :
    300 ∈ debounceFiringTimes 300 [⟨0, 0x41, false⟩, ⟨350, 0x41, false⟩] := by
  decide

/-- C2 amended: with `debounceMs = 300`, a qualifying keystroke at t=0 and
another at t=350, the t=0 key's deadline fires at t=300 (the t=350 keystroke
arrives after that deadline, so it cannot push it); the t=350 keystroke then
re-arms the timer and a second firing occurs at t=650. -/
theorem debounce_key_after_deadline_two_firings :
    DebounceSim 300 ⟨0, false⟩ [⟨0, 0x41, false⟩, ⟨350, 0x41, false⟩]
      = [(300, ⟨0, false⟩), (650, ⟨350, false⟩)] := by
  decide

/-- C3: Keystroke filtering is a frame rule — an event that is OS-flagged as
injected, or whose key code is not a typing key, leaves the debounce state
exactly as it was: `m_lastKeyTime` does not advance and the timer is not
armed. -/
theorem onKeyPress_disqualified_frame (vkCode t : Nat) (injected : Bool)
    (s : DebounceState) (h : injected = true ∨ IsTypingKey vkCode = false) :
    OnKeyPress vkCode injected t s = s := by
  rcases h with h | h
  · simp [OnKeyPress, h]
  · cases hi : injected
    · simp [OnKeyPress, h]
    · simp [OnKeyPress]

/-- Witness for C3 at the modifier key `VK_SHIFT = 0x10` (a hardware,
non-injected keystroke): Shift is not a typing key and processing it leaves
the debounce state unchanged. -/
theorem onKeyPress_disqualified_frame_witness :
    (false = true ∨ IsTypingKey 0x10 = false)
    ∧ OnKeyPress 0x10 false 7 ⟨3, true⟩ = ⟨3, true⟩ :=
  ⟨Or.inr (by decide),
    onKeyPress_disqualified_frame 0x10 7 false ⟨3, true⟩ (Or.inr (by decide))⟩

/-! ## Overlay renderer (OverlayWindow.h in part_000, OverlayWindow.cpp in part_001)

The shared Overlay Presentation State is the record `m_text / m_posX / m_posY /
m_fontSize` guarded by `m_textMutex`, plus the window lifecycle flags.  The
C++ `float m_fontSize` is modelled as `ℚ`: the only operations ever applied to
it are assignment and an (in)equality test whose net effect is assignment, so
no floating-point arithmetic is involved. -/

/-- The `OverlayWindow` object state: lifecycle flags (`m_running`, `m_hwnd`,
`m_renderTarget`, `m_textFormat` modelled by presence booleans), the shared
presentation state, and the `m_visible` flag. -/
structure OverlayWindow where
  running : Bool
  hasWindow : Bool
  hasRenderTarget : Bool
  hasTextFormat : Bool
  text : String
  posX : Int
  posY : Int
  fontSize : ℚ
  visible : Bool
deriving DecidableEq, Repr

/-- `OverlayWindow::UpdateText` (part_001:637-654): no-op unless the window
thread is running and the window exists; otherwise, under `m_textMutex`,
store the new text and position, and store the font size when it differs
(leaving it in place when equal — the stored value equals the argument either
way).  The posted `WM_UPDATE_TEXT` repaint command is modelled by applying
`OverlayWindow.Render` afterwards. -/
def OverlayWindow.UpdateText (w : OverlayWindow) (text : String) (x y : Int)
    (fontSize : ℚ) : OverlayWindow :=
  if !w.running || !w.hasWindow then w
  else
    { w with
      text := text
      posX := x
      posY := y
      fontSize := if fontSize ≠ w.fontSize then fontSize else w.fontSize }

/-- `OverlayWindow::Show` (part_001:656-659): posts `WM_SHOW_OVERLAY` to the
window thread iff `m_running`; the returned boolean records whether the show
command was posted. -/
def OverlayWindow.Show (w : OverlayWindow) : Bool := w.running

/-- What one execution of the paint routine does. -/
inductive RenderOutcome where
  /-- Early return: no render target or no text format. -/
  | skipped
  /-- Empty text: `Hide()` was invoked and nothing was drawn. -/
  | hid
  /-- The snapshot of the presentation state was drawn at its position. -/
  | painted (text : String) (posX posY : Int) (fontSize : ℚ)
deriving DecidableEq, Repr

/-- `OverlayWindow::Render` (part_001:712-810): early-return without a render
target or text format; snapshot the presentation state under `m_textMutex`;
if the text is empty invoke `Hide()` and return; otherwise measure, position
(`SetWindowPos` with `SWP_SHOWWINDOW`) and draw exactly the snapshot values. -/
def OverlayWindow.Render (w : OverlayWindow) : RenderOutcome :=
  if !w.hasRenderTarget || !w.hasTextFormat then .skipped
  else if w.text = "" then .hid
  else .painted w.text w.posX w.posY w.fontSize

/-- The `WM_SHOW_OVERLAY` arm of `OverlayWindow::WindowProc` (part_001:843-849):
only when `m_text` is non-empty, show the window without activating it and set
`m_visible`; with empty text nothing happens. -/
def OverlayWindow.handleShowOverlay (w : OverlayWindow) : OverlayWindow :=
  if w.text ≠ "" then { w with visible := true } else w

/-- The `WM_HIDE_OVERLAY` arm of `OverlayWindow::WindowProc` (part_001:851-854):
hide the window and clear `m_visible`. -/
def OverlayWindow.handleHideOverlay (w : OverlayWindow) : OverlayWindow :=
  { w with visible := false }

/-- The stored-state effect of `UpdateText`: the font-size compare-and-assign
nets out to plain assignment. -/
theorem updateText_eq (w : OverlayWindow) (t : String) (x y : Int) (f : ℚ) :
    w.UpdateText t x y f =
      if !w.running || !w.hasWindow then w
      else { w with text := t, posX := x, posY := y, fontSize := f } := by
  unfold OverlayWindow.UpdateText
  split
  · rfl
  · by_cases h : f = w.fontSize <;> simp [h]

/-- C6: Overlay update coalescing (last-write-wins) — writing the presentation
state twice before the next paint leaves exactly the second write's values, so
the next paint reads and renders only those: `UpdateText t1` then
`UpdateText t2` equals `UpdateText t2` alone, both as states and as the
outcome of the next `Render`. -/
theorem updateText_last_write_wins (w : OverlayWindow) (t1 t2 : String)
    (x1 y1 x2 y2 : Int) (f1 f2 : ℚ) :
    (w.UpdateText t1 x1 y1 f1).UpdateText t2 x2 y2 f2 = w.UpdateText t2 x2 y2 f2
    ∧ ((w.UpdateText t1 x1 y1 f1).UpdateText t2 x2 y2 f2).Render
        = (w.UpdateText t2 x2 y2 f2).Render := by
  have hstate :
      (w.UpdateText t1 x1 y1 f1).UpdateText t2 x2 y2 f2 = w.UpdateText t2 x2 y2 f2 := by
    rw [updateText_eq w t1 x1 y1 f1, updateText_eq w t2 x2 y2 f2]
    split
    · rw [updateText_eq]
      split
      · rfl
      · simp_all
    · rw [updateText_eq]
      split
      · simp_all
      · rfl
  exact ⟨hstate, by rw [hstate]⟩

/-- C7: Empty text never yields a visible overlay — after `UpdateText "" x y f`
on a live window, the next paint takes the empty-text branch and invokes
`Hide()` (whose handler clears `m_visible`), and the `WM_SHOW_OVERLAY` handler
is a no-op on any state whose current text is empty. -/
theorem empty_text_hides_overlay (w : OverlayWindow) (x y : Int) (f : ℚ)
    (hr : w.running = true) (hw : w.hasWindow = true)
    (hrt : w.hasRenderTarget = true) (htf : w.hasTextFormat = true) :
    (w.UpdateText "" x y f).Render = RenderOutcome.hid
    ∧ ((w.UpdateText "" x y f).handleHideOverlay).visible = false
    ∧ ∀ w2 : OverlayWindow, w2.text = "" → w2.handleShowOverlay = w2 := by
  refine ⟨?_, rfl, ?_⟩
  · rw [updateText_eq]
    simp [hr, hw, OverlayWindow.Render, hrt, htf]
  · intro w2 h2
    simp [OverlayWindow.handleShowOverlay, h2]

/-- Witness for C7 at a concrete live overlay state. -/
theorem empty_text_hides_overlay_witness :
    ({ running := true, hasWindow := true, hasRenderTarget := true,
       hasTextFormat := true, text := "ld", posX := 0, posY := 0,
       fontSize := 14, visible := true } : OverlayWindow).running = true
    ∧ (({ running := true, hasWindow := true, hasRenderTarget := true,
          hasTextFormat := true, text := "ld", posX := 0, posY := 0,
          fontSize := 14, visible := true } : OverlayWindow).UpdateText "" 5 6 14).Render
        = RenderOutcome.hid := by
  refine ⟨rfl, ?_⟩
  exact (empty_text_hides_overlay
    { running := true, hasWindow := true, hasRenderTarget := true,
      hasTextFormat := true, text := "ld", posX := 0, posY := 0,
      fontSize := 14, visible := true } 5 6 14 rfl rfl rfl rfl).1

/-! ## Hook lifecycle and the addon control surface (KeyboardHook.cpp, main.cpp) -/

/-- The lifecycle state of a `KeyboardHook` object: `m_running`,
`m_shouldStop`, `m_debounceActive`, joinability of the two owned threads
(`m_hookThread`, `m_debounceThread` — joinable means a live, unjoined thread,
i.e. a potential thread leak), and `m_hookThreadId`. -/
structure KeyboardHookState where
  running : Bool
  shouldStop : Bool
  debounceActive : Bool
  hookThreadJoinable : Bool
  debounceThreadJoinable : Bool
  hookThreadId : Nat
deriving DecidableEq, Repr

/-- `KeyboardHook::Stop` (part_001:59-86): if not running and the hook thread
is not joinable, return at once leaving the state untouched; otherwise set
`m_shouldStop`, clear `m_debounceActive`, notify, post `WM_QUIT`, join both
threads (making them non-joinable), clear `m_running` and `m_hookThreadId`. -/
def KeyboardHookState.Stop (h : KeyboardHookState) : KeyboardHookState :=
  if !h.running && !h.hookThreadJoinable then h
  else
    { h with
      shouldStop := true
      debounceActive := false
      hookThreadJoinable := false
      debounceThreadJoinable := false
      running := false
      hookThreadId := 0 }

/-- The addon's global state in `main.cpp`: the owned singletons (pointers
modelled as `Option`), the thread-safe callback, and `g_initialized`. -/
structure AddonState where
  keyboardHook : Option KeyboardHookState
  tsfnActive : Bool
  overlayWindow : Option OverlayWindow
  monitorInitialized : Bool
  comInitialized : Bool
  initialized : Bool
deriving DecidableEq, Repr

/-- `Shutdown` (main.cpp:252-279): each global is guarded by a null check —
`g_keyboardHook` is stopped then reset, `g_tsfn` released, `g_overlayWindow`
destroyed then reset, `g_systemMonitor` shut down then reset, the COM
initializer reset, and `g_initialized` cleared; the call always returns
`true`. -/
def Shutdown (a : AddonState) : AddonState :=
  let keyboardHook : Option KeyboardHookState :=
    match a.keyboardHook with
    | some h => (fun (_ : KeyboardHookState) => none) h.Stop
    | none => none
  let overlayWindow : Option OverlayWindow :=
    match a.overlayWindow with
    | some _ => none
    | none => none
  { keyboardHook := keyboardHook
    tsfnActive := false
    overlayWindow := overlayWindow
    monitorInitialized := false
    comInitialized := false
    initialized := false }

/-- C9: Stop/shutdown idempotence — a second `Stop` observes the
already-stopped state (the early-return guard) and leaves it unchanged, so
stop-after-stop equals a single stop; likewise `Shutdown` twice equals
`Shutdown` once; after any `Stop` the hook thread is joined, and stopping
from a running state joins the debounce thread too, so no thread leaks. -/
theorem stop_shutdown_idempotent (h : KeyboardHookState) (a : AddonState) :
    h.Stop.Stop = h.Stop
    ∧ Shutdown (Shutdown a) = Shutdown a
    ∧ h.Stop.hookThreadJoinable = false
    ∧ (h.running = true → h.Stop.debounceThreadJoinable = false) := by
  refine ⟨?_, ?_, ?_, ?_⟩
  · unfold KeyboardHookState.Stop
    split
    · rfl
    · simp
  · unfold Shutdown
    cases a.keyboardHook <;> cases a.overlayWindow <;> rfl
  · unfold KeyboardHookState.Stop
    split
    · simp_all
    · rfl
  · intro hr
    unfold KeyboardHookState.Stop
    simp [hr]

/-- Witness for C9 at a concrete running hook state and a concrete addon
state. -/
theorem stop_shutdown_idempotent_witness :
    ({ running := true, shouldStop := false, debounceActive := true,
       hookThreadJoinable := true, debounceThreadJoinable := true,
       hookThreadId := 42 } : KeyboardHookState).running = true
    ∧ ({ running := true, shouldStop := false, debounceActive := true,
         hookThreadJoinable := true, debounceThreadJoinable := true,
         hookThreadId := 42 } : KeyboardHookState).Stop.Stop
        = ({ running := true, shouldStop := false, debounceActive := true,
             hookThreadJoinable := true, debounceThreadJoinable := true,
             hookThreadId := 42 } : KeyboardHookState).Stop
    ∧ ({ running := true, shouldStop := false, debounceActive := true,
         hookThreadJoinable := true, debounceThreadJoinable := true,
         hookThreadId := 42 } : KeyboardHookState).Stop.debounceThreadJoinable = false := by
  refine ⟨rfl, ?_, ?_⟩
  · exact (stop_shutdown_idempotent
      { running := true, shouldStop := false, debounceActive := true,
        hookThreadJoinable := true, debounceThreadJoinable := true, hookThreadId := 42 }
      { keyboardHook := none, tsfnActive := false, overlayWindow := none,
        monitorInitialized := false, comInitialized := false, initialized := false }).1
  · exact (stop_shutdown_idempotent
      { running := true, shouldStop := false, debounceActive := true,
        hookThreadJoinable := true, debounceThreadJoinable := true, hookThreadId := 42 }
      { keyboardHook := none, tsfnActive := false, overlayWindow := none,
        monitorInitialized := false, comInitialized := false, initialized := false }).2.2.2 rfl

/-- `UpdateOverlay` (main.cpp:170-196): returns `false` leaving everything
unchanged when `!g_initialized || !g_overlayWindow`; otherwise calls
`UpdateText(text, x, y, fontSize)` then `Show()` on the overlay and returns
`true`.  The result triple is (overlay state afterwards, whether a show
command was posted, the returned boolean). -/
def UpdateOverlay (initialized : Bool) (ow : Option OverlayWindow) (text : String)
    (x y : Int) (fontSize : ℚ) : Option OverlayWindow × Bool × Bool :=
  match initialized, ow with
  | true, some w =>
    let w2 := w.UpdateText text x y fontSize
    (some w2, w2.Show, true)
  | true, none => (ow, false, false)
  | false, _ => (ow, false, false)

/-- C10: `updateOverlay` couples update with show, guarded by initialization —
uninitialized, it returns `false` and leaves the overlay untouched;
initialized (with the overlay's window thread live, which successful
`initialize()` guarantees), it stores the new text/position/fontSize, posts a
show command, and returns `true`; the posted show makes a non-empty suggestion
visible with no separate show call from the caller. -/
theorem updateOverlay_couples_update_and_show (ow : Option OverlayWindow)
    (text : String) (x y : Int) (f : ℚ) (w : OverlayWindow)
    (hr : w.running = true) (hw : w.hasWindow = true) :
    UpdateOverlay false ow text x y f = (ow, false, false)
    ∧ UpdateOverlay true (some w) text x y f
        = (some { w with text := text, posX := x, posY := y, fontSize := f }, true, true)
    ∧ (text ≠ "" →
        (OverlayWindow.handleShowOverlay
          { w with text := text, posX := x, posY := y, fontSize := f }).visible = true) := by
  refine ⟨rfl, ?_, ?_⟩
  · show (some (w.UpdateText text x y f), (w.UpdateText text x y f).Show, true) = _
    rw [updateText_eq]
    simp [hr, hw, OverlayWindow.Show]
  · intro ht
    simp [OverlayWindow.handleShowOverlay, ht]

/-- Witness for C10 at a concrete live overlay window. -/
theorem updateOverlay_couples_update_and_show_witness :
    ({ running := true, hasWindow := true, hasRenderTarget := true,
       hasTextFormat := true, text := "", posX := 0, posY := 0,
       fontSize := 14, visible := false } : OverlayWindow).running = true
    ∧ UpdateOverlay true
        (some { running := true, hasWindow := true, hasRenderTarget := true,
                hasTextFormat := true, text := "", posX := 0, posY := 0,
                fontSize := 14, visible := false }) "ld" 502 300 14
        = (some { running := true, hasWindow := true, hasRenderTarget := true,
                  hasTextFormat := true, text := "ld", posX := 502, posY := 300,
                  fontSize := 14, visible := false }, true, true) := by
  refine ⟨rfl, ?_⟩
  exact (updateOverlay_couples_update_and_show none "ld" 502 300 14
    { running := true, hasWindow := true, hasRenderTarget := true,
      hasTextFormat := true, text := "", posX := 0, posY := 0,
      fontSize := 14, visible := false } rfl rfl).2.1

/-! ## Context extractor (common.h, SystemMonitor.h/.cpp, main.cpp — all in
src/native/src/main.cpp)

The extractor talks to the OS accessibility layer; those external calls are
modelled by an environment record holding what each OS strategy would return,
while the extractor's own control flow and string handling are embedded from
the source. -/

/-- `CaretInfo` (common.h): screen-space rectangle plus a validity flag. -/
structure CaretInfo where
  x : Int
  y : Int
  width : Int
  height : Int
  valid : Bool
deriving DecidableEq, Repr

/-- The default-constructed `CaretInfo{}`: all zero, invalid. -/
def CaretInfo.empty : CaretInfo := ⟨0, 0, 0, 0, false⟩

/-- `TextContext` (common.h). -/
structure TextContext where
  text : String
  processName : String
  windowTitle : String
  caret : CaretInfo
  valid : Bool
deriving DecidableEq, Repr

/-- The default-constructed `TextContext result;`: empty strings, invalid
caret, `valid = false`. -/
def TextContext.empty : TextContext := ⟨"", "", "", CaretInfo.empty, false⟩

/-- `IUIAutomationTextRange::GetText(maxLength)` as used on the document
range: it returns at most `maxLength` characters taken from the START of the
range's text. -/
def uiaRangeGetText (maxLength : Nat) (rangeText : String) : String :=
  ⟨rangeText.data.take maxLength⟩

/-- The trailing-characters truncation the source writes as
`text.substr(text.length() - contextLength)` guarded by
`text.length() > contextLength` (used by `GetTextFromValuePattern`, and
intended by the document-range branch of `GetTextFromTextPattern`). -/
def substrFromEnd (contextLength : Nat) (s : String) : String :=
  if s.length > contextLength then ⟨s.data.drop (s.length - contextLength)⟩ else s

/-- What the OS text-pattern interfaces of the focused element would answer
(`SystemMonitor::GetTextFromTextPattern`'s external calls):
`tp2Available` and `caretRangeActive` describe whether `TextPattern2` exists
and `GetCaretRange` yields an active caret; `caretContextText` is the text of
the caret range after `MoveEndpointByUnit(Start, Character, -contextLength)`
(`none` when `GetText` fails); `tp1Available` is `TextPattern` availability;
`selectionContextText` is the analogous text for the first selection range
(`none` when there is no selection or its `GetText` fails); `documentText` is
the full text of `get_DocumentRange` (`none` when that call fails). -/
structure TextPatternEnv where
  tp2Available : Bool
  caretRangeActive : Bool
  caretContextText : Option String
  tp1Available : Bool
  selectionContextText : Option String
  documentText : Option String
deriving DecidableEq, Repr

/-- `SystemMonitor::GetTextFromTextPattern` (main.cpp, SystemMonitor.cpp
794-901): try the `TextPattern2` caret range first and return its expanded
text; otherwise under `TextPattern` return the expanded selection text; absent
a selection, call `GetText(contextLength)` on the whole document range and
then apply the trailing-`substr` guard to what that returned. -/
def GetTextFromTextPattern (env : TextPatternEnv) (contextLength : Nat) : String :=
  match (if env.tp2Available && env.caretRangeActive then env.caretContextText else none) with
  | some t => t
  | none =>
    if env.tp1Available then
      match env.selectionContextText with
      | some t => t
      | none =>
        match env.documentText with
        | some doc =>
          let fullText := uiaRangeGetText contextLength doc
          if fullText.length > contextLength then
            ⟨fullText.data.drop (fullText.length - contextLength)⟩
          else fullText
        | none => ""
    else ""

/-- The focused UI element as the extractor sees it: its native window handle,
its text-pattern answers, its `ValuePattern` current value (`none` when the
pattern or value is unavailable), its accessible `Name`, and the caret
rectangle `GetCaretFromTextPattern` computes from its `TextPattern2` caret
range bounding rectangles. -/
structure ElementEnv where
  hwnd : Option Nat
  tp : TextPatternEnv
  valuePatternValue : Option String
  currentName : Option String
  caretFromTextPattern : CaretInfo
deriving DecidableEq, Repr

/-- `SystemMonitor::GetTextFromValuePattern` (SystemMonitor.cpp 903-940):
return the trailing `contextLength` characters of the `ValuePattern` value,
else of the element's `Name`, else the empty string. -/
def GetTextFromValuePattern (elem : ElementEnv) (contextLength : Nat) : String :=
  match elem.valuePatternValue with
  | some v => substrFromEnd contextLength v
  | none =>
    match elem.currentName with
    | some n => substrFromEnd contextLength n
    | none => ""

/-- The OS environment a `SystemMonitor::GetCurrentContext` call runs in:
`initialized` is `m_initialized && m_automation`; `focusedElement` is the
result of `GetFocusedElement()` (which already falls back to resolving an
element from the foreground window); `foregroundHwnd` is
`GetForegroundWindow()`; `processNameOf`/`windowTitleOf` resolve a window
handle; `caretFromWin32` is what `GetCaretFromWin32()` returns. -/
structure MonitorEnv where
  initialized : Bool
  focusedElement : Option ElementEnv
  foregroundHwnd : Option Nat
  processNameOf : Nat → String
  windowTitleOf : Nat → String
  caretFromWin32 : CaretInfo

/-- `SystemMonitor::GetCurrentContext` (SystemMonitor.cpp 691-743): return the
empty context unless initialized and a focused element resolves; take the
element's window handle or else the foreground window for process name and
title; take `GetTextFromTextPattern`, falling back to
`GetTextFromValuePattern` when it is empty; take the `TextPattern2` caret,
falling back to Win32 when invalid; set
`valid = !text.empty() || caret.valid`. -/
def GetCurrentContext (env : MonitorEnv) (contextLength : Nat) : TextContext :=
  if !env.initialized then TextContext.empty
  else
    match env.focusedElement with
    | none => TextContext.empty
    | some elem =>
      let hwnd : Option Nat :=
        match elem.hwnd with
        | some h => some h
        | none => env.foregroundHwnd
      let processName := match hwnd with | some h => env.processNameOf h | none => ""
      let windowTitle := match hwnd with | some h => env.windowTitleOf h | none => ""
      let text0 := GetTextFromTextPattern elem.tp contextLength
      let text := if text0 = "" then GetTextFromValuePattern elem contextLength else text0
      let caret0 := elem.caretFromTextPattern
      let caret := if caret0.valid then caret0 else env.caretFromWin32
      { text := text
        processName := processName
        windowTitle := windowTitle
        caret := caret
        valid := !decide (text = "") || caret.valid }

/-- `GetTextContext` (main.cpp:214-247): `null` when the addon is not
initialized; otherwise extract a context and return `null` exactly when it is
invalid, else the context object. -/
def GetTextContext (g_initialized : Bool) (env : MonitorEnv) (contextLength : Nat) :
    Option TextContext :=
  if !g_initialized then none
  else
    let ctx := GetCurrentContext env contextLength
    if !ctx.valid then none else some ctx

/-- C4: for every environment, the extracted context satisfies
`valid = true` iff its text is non-empty or its caret is valid; and (with the
addon initialized, the only state in which an extraction happens at all)
`getTextContext` returns `null` exactly when the extracted context is
invalid, and the context object itself otherwise. -/
theorem textContext_valid_iff_and_null (env : MonitorEnv) (contextLength : Nat) :
    ((GetCurrentContext env contextLength).valid = true ↔
      ((GetCurrentContext env contextLength).text ≠ ""
        ∨ (GetCurrentContext env contextLength).caret.valid = true))
    ∧ GetTextContext true env contextLength
        = (if (GetCurrentContext env contextLength).valid then
            some (GetCurrentContext env contextLength) else none) := by
  constructor
  · unfold GetCurrentContext
    split
    · simp [TextContext.empty, CaretInfo.empty]
    · match henv : env.focusedElement with
      | none => simp [TextContext.empty, CaretInfo.empty]
      | some elem =>
        simp only []
        by_cases ht : (if GetTextFromTextPattern elem.tp contextLength = "" then
            GetTextFromValuePattern elem contextLength else
            GetTextFromTextPattern elem.tp contextLength) = "" <;>
          simp [ht]
  · unfold GetTextContext
    split
    · simp_all
    · split <;> simp_all

/-- A focused element with no working `TextPattern2` caret range, a working
plain `TextPattern`, no current selection, and a document whose whole text is
`"hello world"`. -/
def documentOnlyEnv : TextPatternEnv :=
  { tp2Available := false
    caretRangeActive := false
    caretContextText := none
    tp1Available := true
    selectionContextText := none
    documentText := some "hello world" }

/-- C5 (code bug): in the no-selection document-range fallback the source
calls `documentRange->GetText(contextLength, &text)`, which yields the LEADING
`contextLength` characters of the document, so the trailing-`substr` guard
that follows (`fullText.length() > contextLength`, annotated
`// Return last contextLength chars`) can never trigger — on the document
`"hello world"` with `maxChars = 3` the code returns the leading `"hel"`,
not the trailing `"rld"` that the spec and the code's own comment describe. -/
theorem documentRange_returns_leading_chars :
    GetTextFromTextPattern documentOnlyEnv 3 = "hel"
    ∧ substrFromEnd 3 "hello world" = "rld"
    ∧ GetTextFromTextPattern documentOnlyEnv 3 ≠ substrFromEnd 3 "hello world" := by
  decide

/-! ## Failure containment in the typing-paused path (KeyboardHook.cpp) -/

/-- How one `OnTypingPaused` call ended, as observed by the debounce loop. -/
inductive CallOutcome where
  /-- Early return: no monitor, invalid context, or no registered callback. -/
  | notRun
  /-- The registered callback ran and returned normally. -/
  | ok
  /-- The registered callback raised; the `catch (...)` swallowed and logged
  it. -/
  | caught (msg : String)
deriving DecidableEq, Repr

/-- `KeyboardHook::OnTypingPaused` (part_001:214-249) with exceptions made
explicit: `getCtx` is the `m_systemMonitor->GetCurrentContext()` call — it
sits OUTSIDE the `try` block, so an exception it raises propagates out of
`OnTypingPaused` (an `Except.error` result); the registered callback
invocation is wrapped in `try { ... } catch (...)` (part_001:240-245), so its
exception is converted into a logged `CallOutcome.caught`. -/
def OnTypingPausedRun (hasMonitor : Bool) (getCtx : Except String TextContext)
    (callback : Option (TextContext → Except String Unit)) :
    Except String CallOutcome :=
  if !hasMonitor then .ok .notRun
  else
    match getCtx with
    | .error e => .error e
    | .ok ctx =>
      if !ctx.valid then .ok .notRun
      else
        match callback with
        | none => .ok .notRun
        | some f =>
          match f ctx with
          | .ok _ => .ok .ok
          | .error e => .ok (.caught e)

/-- `DebounceThreadProc` (part_001:144-181) over a keystroke trace, with the
firing of `OnTypingPaused` made explicit: at each firing instant the thread
synchronously runs `fire`; if that call lets an exception escape, the
exception unwinds the thread function and the debounce thread terminates
(no later firing is ever processed) — returned as the final `Option String`.
Otherwise the loop records the outcome and returns to its wait state. -/
def DebounceThreadRun (D : Nat) (fire : Nat → Except String CallOutcome) :
    DebounceState → List KeyEvent → List (Nat × CallOutcome) × Option String
  | s, [] =>
    if s.debounceActive then
      match fire (s.lastKeyTime + D) with
      | .ok o => ([(s.lastKeyTime + D, o)], none)
      | .error e => ([], some e)
    else ([], none)
  | s, e :: rest =>
    if s.debounceActive = true ∧ s.lastKeyTime + D ≤ e.time then
      match fire (s.lastKeyTime + D) with
      | .ok o =>
        let res := DebounceThreadRun D fire
          (OnKeyPress e.vkCode e.injected e.time { s with debounceActive := false }) rest
        ((s.lastKeyTime + D, o) :: res.1, res.2)
      | .error err => ([], some err)
    else
      DebounceThreadRun D fire (OnKeyPress e.vkCode e.injected e.time s) rest

/-- If every firing returns normally (no escaped exception), the debounce
thread never terminates early: it survives every firing and processes exactly
the firing schedule of `DebounceSim`. -/
theorem debounceThreadRun_ok_of_fire_ok (D : Nat) (fire : Nat → Except String CallOutcome)
    (hfire : ∀ t, ∃ o, fire t = Except.ok o) :
    ∀ (keys : List KeyEvent) (s : DebounceState),
      (DebounceThreadRun D fire s keys).2 = none
      ∧ (DebounceThreadRun D fire s keys).1.map Prod.fst
          = (DebounceSim D s keys).map Prod.fst := by
  intro keys
  induction keys with
  | nil =>
    intro s
    unfold DebounceThreadRun DebounceSim
    split
    · obtain ⟨o, ho⟩ := hfire (s.lastKeyTime + D)
      rw [ho]
      exact ⟨rfl, rfl⟩
    · exact ⟨rfl, rfl⟩
  | cons e rest ih =>
    intro s
    unfold DebounceThreadRun DebounceSim
    split
    · obtain ⟨o, ho⟩ := hfire (s.lastKeyTime + D)
      rw [ho]
      refine ⟨(ih _).1, ?_⟩
      simpa using (ih _).2
    · exact ih _

/-- C8 (amended): Callback failure containment — for every keystroke trace
and every registered callback, including ones that raise, a firing whose
extractor call returns normally never lets an exception escape
`OnTypingPaused`: the `try/catch` around the callback converts the raise into
a logged outcome, the debounce thread survives, and the loop processes every
subsequent firing of the schedule.  (The extractor call itself sits outside
the `try` block; see the counterexample.) -/
theorem callback_exception_contained (D : Nat) (keys : List KeyEvent)
    (hasMonitor : Bool) (ctx : TextContext)
    (cb : Option (TextContext → Except String Unit)) :
    (DebounceThreadRun D (fun _ => OnTypingPausedRun hasMonitor (Except.ok ctx) cb)
        ⟨0, false⟩ keys).2 = none
    ∧ (DebounceThreadRun D (fun _ => OnTypingPausedRun hasMonitor (Except.ok ctx) cb)
        ⟨0, false⟩ keys).1.map Prod.fst
        = (DebounceSim D ⟨0, false⟩ keys).map Prod.fst := by
  apply debounceThreadRun_ok_of_fire_ok
  intro t
  unfold OnTypingPausedRun
  cases hasMonitor
  · exact ⟨.notRun, rfl⟩
  · simp only [Bool.not_true, Bool.false_eq_true, if_false]
    cases hv : ctx.valid
    · exact ⟨.notRun, by simp⟩
    · cases cb with
      | none => exact ⟨.notRun, by simp⟩
      | some f =>
        cases hf : f ctx with
        | ok u => exact ⟨.ok, by simp [hf]⟩
        | error e => exact ⟨.caught e, by simp [hf]⟩

/-- C8 counterexample: the extractor call is NOT inside the `try` block — with
qualifying keystrokes at t=0 and t=350 and an extractor that raises at the
t=300 firing, the exception escapes `OnTypingPaused`, the debounce thread
terminates, and the t=650 firing of the schedule (second conjunct) is never
processed, contradicting the claim that an exception raised by the extractor
is caught and the loop keeps processing subsequent firings. -/
theorem extractor_exception_escapes :
    DebounceThreadRun 300
        (fun _ => OnTypingPausedRun true (Except.error "extractor failure")
          (some fun _ => Except.ok ()))
        ⟨0, false⟩ [⟨0, 0x41, false⟩, ⟨350, 0x41, false⟩]
      = ([], some "extractor failure")
    ∧ debounceFiringTimes 300 [⟨0, 0x41, false⟩, ⟨350, 0x41, false⟩] = [300, 650] := by
  constructor
  · rfl
  · decide

end GhostText
